import Mathlib

/-!
Shallow embedding of `src/connection-pool.js` from the
observable-connection-pool repository, together with theorems settling the
frozen claims about its specification.

Modelling conventions:
* A Resource is an opaque identity, embedded as `Nat`.
* The available list stores wrapper objects `{connection, timeout}`
  (source line 79-82), embedded as `Entry`.
* JavaScript truthiness of a validate result is embedded as `Bool`:
  the default validate `() => {}` (line 10) returns `undefined`, whose
  truthiness is `false`.
* A synchronously thrown JavaScript exception is embedded as
  `Except.error`; operations that cannot throw return plain pairs.
* The factory is asynchronous: `createResource` (line 264) optimistically
  increments `totalConnections` and registers one pending create handler;
  a separate `createComplete` transition runs the handler.
* The wait queue is the external `PriorityQueue` of `mangabi-datastructures`
  (not part of this repository).  Every priority actually stored by
  `acquire` equals `options.priorityRange` (see `storedPriority_const`),
  so the comparator ties on every pair; the queue is embedded as an
  arrival-order list, and every theorem below only dequeues from a
  queue with at most one element, where any dequeue order agrees.
-/

namespace ObservablePool

abbrev Resource := Nat

/-- Wrapper object `{connection, timeout}` pushed by `release`
(source lines 79-82). -/
structure Entry where
  connection : Resource
  timeout : Int
deriving DecidableEq

/-- Completion sink: either a three-channel observer
(`onNext`/`onError`/`onCompleted`) or a plain callback function,
the two shapes the source tests for with `observer.onNext` /
`typeof observer == 'function'`. -/
inductive Sink where
  | observer (id : Nat)
  | fn (id : Nat)
deriving DecidableEq

/-- A JavaScript value handed to a sink: the source is inconsistent and
passes either the wrapper object (`dispense`, line 251: `onNext(validClient)`)
or the raw connection (`createResource`, line 294: `onNext(connection)`). -/
inductive JsVal where
  | ofEntry (e : Entry)
  | ofConn (r : Resource)
deriving DecidableEq

/-- Observable side effects of a pool operation, in program order. -/
inductive Effect where
  | factoryCreate
  | factoryDestroy (r : Resource)
  | onNextVal (s : Sink) (v : JsVal)
  | onCompleted (s : Sink)
  | onError (s : Sink) (msg : String)
  | fnSuccess (s : Sink) (v : JsVal)
  | fnError (s : Sink) (msg : String)
  | signalled (s : Sink)
  | armedReaper
  | cancelledReaper
  | pollScheduled
  | tickDispense
deriving DecidableEq

/-- A synchronously raised JavaScript exception. -/
inductive JsError where
  | typeError
  | refError
deriving DecidableEq

/-- The frozen option record built by the constructor (source lines 5-15). -/
structure Options where
  idleTimeoutMillis : Int
  reapInterval : Int
  refreshIdle : Bool
  returnToHead : Bool
  validate : Resource → Bool
  priorityRange : Int
  max : Int
  min : Int

/-- Caller-supplied options object; `none` embeds an absent (or, for the
`||`-defaulted fields, falsy) property. -/
structure OptsIn where
  idleTimeoutMillis : Option Int := none
  reapInterval : Option Int := none
  refreshIdle : Option Bool := none
  returnToHead : Option Bool := none
  validate : Option (Resource → Bool) := none
  priorityRange : Option Int := none
  max : Option Int := none
  min : Option Int := none

/-- Option normalisation, source lines 5-15.  The default validate in the
source is the arrow function with an empty body `() => {}` (line 10); it
returns `undefined`, which is falsy, so its embedding as a truthiness
predicate is the constantly-false function. -/
def mkOptions (o : OptsIn) : Options :=
  let maxv : Int := max (o.max.getD 1) 1
  { idleTimeoutMillis := o.idleTimeoutMillis.getD 30000
    reapInterval := o.reapInterval.getD 1000
    refreshIdle := o.refreshIdle.getD true
    returnToHead := o.returnToHead.getD false
    validate := o.validate.getD (fun _ => false)
    priorityRange := o.priorityRange.getD 10
    max := maxv
    min := min (o.min.getD 0) (maxv - 1) }

/-- Mutable pool state closed over by `Pool` (source lines 19-27), plus the
count of factory create handlers that are in flight. -/
structure PoolState where
  available : List Entry
  total : Int
  waiting : List (Sink × Int)
  draining : Bool
  reaperArmed : Bool
  pendingCreates : Nat
deriving DecidableEq

/-- Embeds the identity comparison `connectionWithTimeout === connection`
in `destroy` (source line 63).  The elements of `availableConnections` are
always the fresh wrapper objects allocated by `release` (line 79), never a
raw connection, so this strict-equality test between a wrapper object and
a connection object is always false. -/
def jsEqEntryConn (_ : Entry) (_ : Resource) : Bool := false

/-- Source line 43 and 47: the priority actually passed to
`waitingClients.enqueue` is `Math.max(Math.min(priority, 0), options.priorityRange)`. -/
def storedPriority (opts : Options) (priority : Int) : Int :=
  max (min priority 0) opts.priorityRange

/-- Source lines 264-266 restricted to the synchronous part: optimistically
increment `totalConnections` and invoke `clientFactory.create`, leaving one
handler pending. -/
def createResource (st : PoolState) : PoolState × List Effect :=
  ({ st with total := st.total + 1, pendingCreates := st.pendingCreates + 1 },
   [Effect.factoryCreate])

/-- Source lines 304-308: `_.times(options.min - totalConnections, createResource)`
when not draining and below the minimum. -/
def ensureMinimum (opts : Options) (st : PoolState) : PoolState × List Effect :=
  if st.draining = false ∧ st.total < opts.min then
    let n : Nat := (opts.min - st.total).toNat
    ({ st with total := st.total + n, pendingCreates := st.pendingCreates + n },
     List.replicate n Effect.factoryCreate)
  else (st, [])

/-- Source lines 61-66: decrement `totalConnections`, run
`_.remove(availableConnections, cwt => cwt === connection)` (which, per
`jsEqEntryConn`, never matches a wrapper), call the factory destroy, then
`ensureMinimum`. -/
def destroyConn (opts : Options) (st : PoolState) (r : Resource) :
    PoolState × List Effect :=
  let st1 : PoolState := { st with
    total := st.total - 1,
    available := st.available.filter (fun e => ! jsEqEntryConn e r) }
  let em := ensureMinimum opts st1
  (em.1, Effect.factoryDestroy r :: em.2)

/-- Source lines 219-224: arm the reaper unless already armed. -/
def scheduleRemoveIdle (st : PoolState) : PoolState × List Effect :=
  if st.reaperArmed then (st, [])
  else ({ st with reaperArmed := true }, [Effect.armedReaper])

/-- The `_.find` scan of `dispense` (source lines 238-244): walk the
available list in order; an entry failing `validate` is destroyed (calling
`destroy`, which mutates `totalConnections` but, per `jsEqEntryConn`, never
removes the wrapper from the list) and the scan continues; the first entry
passing `validate` is returned.  The list itself is not mutated during the
scan, so iterating the input list is faithful. -/
def scanFind (opts : Options) (st : PoolState) :
    List Entry → Option Entry × PoolState × List Effect
  | [] => (none, st, [])
  | e :: rest =>
    if opts.validate e.connection then (some e, st, [])
    else
      let d := destroyConn opts st e.connection
      let tailRes := scanFind opts d.1 rest
      (tailRes.1, tailRes.2.1, d.2 ++ tailRes.2.2)

/-- Delivery of a value to a sink: `observer.onNext(v); observer.onCompleted()`
for the observer shape, `observer(null, v)` for the function shape
(source lines 250-255 and 293-297). -/
def deliverValue (s : Sink) (v : JsVal) : List Effect :=
  match s with
  | .observer _ => [Effect.onNextVal s v, Effect.onCompleted s]
  | .fn _ => [Effect.fnSuccess s v]

/-- Source lines 236-262.  With a non-empty wait queue, run the validate
scan; if some entry was found, `availableConnections.shift()` removes the
HEAD of the list (not necessarily the found entry), the dequeued sink
receives `validClient` — the wrapper object itself, not its `.connection` —
and finally a new resource is created whenever `totalConnections < max`
(even when a client was just served). -/
def dispense (opts : Options) (st : PoolState) : PoolState × List Effect :=
  if st.waiting.length > 0 then
    let sf := scanFind opts st st.available
    let hand : PoolState × List Effect :=
      match sf.1 with
      | some e =>
        let stShift : PoolState := { sf.2.1 with available := sf.2.1.available.tail }
        match stShift.waiting with
        | (sk, _) :: rest =>
            ({ stShift with waiting := rest }, deliverValue sk (JsVal.ofEntry e))
        | [] => (stShift, [])
      | none => (sf.2.1, [])
    let fin : PoolState × List Effect :=
      if hand.1.total < opts.max then
        let cr := createResource hand.1
        (cr.1, hand.2 ++ cr.2)
      else (hand.1, hand.2)
    (fin.1, sf.2.2 ++ fin.2)
  else (st, [])

/-- The double-release guard of `release`, source line 76:
`availableConnections.some(cwt => cwt.connection === connection)`. -/
def isPresent (st : PoolState) (r : Resource) : Bool :=
  st.available.any (fun e => e.connection == r)

/-- Source lines 74-92: no-op if the connection is already present;
otherwise build the wrapper with deadline `now + idleTimeoutMillis`, insert
at head or tail per `returnToHead`, run `dispense`, then arm the reaper. -/
def releaseConn (opts : Options) (st : PoolState) (r : Resource) (now : Int) :
    PoolState × List Effect :=
  if isPresent st r then (st, [])
  else
    let e : Entry := { connection := r, timeout := now + opts.idleTimeoutMillis }
    let stP : PoolState :=
      { st with available :=
          if opts.returnToHead then e :: st.available else st.available ++ [e] }
    let dp := dispense opts stP
    let si := scheduleRemoveIdle dp.1
    (si.1, dp.2 ++ si.2)

/-- Source lines 43-50.  When draining, the source unconditionally calls
`observer.onError(...)`: for the observer shape this delivers the error,
but a plain callback function has no `onError` property, so the call raises
a TypeError.  Otherwise enqueue with the clamped priority, dispense, and
return the headroom hint `totalConnections < options.max`. -/
def acquire (opts : Options) (st : PoolState) (sink : Sink) (priority : Int) :
    Except JsError (PoolState × List Effect × Option Bool) :=
  if st.draining then
    match sink with
    | .observer _ =>
        .ok (st, [Effect.onError sink "pool is draining and cannot accept work"], none)
    | .fn _ => .error .typeError
  else
    let st1 : PoolState :=
      { st with waiting := st.waiting ++ [(sink, storedPriority opts priority)] }
    let dp := dispense opts st1
    .ok (dp.1, dp.2, some (decide (dp.1.total < opts.max)))

/-- Success continuation of the factory create handler (source lines
266-301, error-free case): consume one pending create; if a client waits,
dequeue it and deliver the raw connection; otherwise `release(connection)`. -/
def createComplete (opts : Options) (st : PoolState) (r : Resource) (now : Int) :
    PoolState × List Effect :=
  if st.pendingCreates = 0 then (st, [])
  else
    let st0 : PoolState := { st with pendingCreates := st.pendingCreates - 1 }
    match st0.waiting with
    | (sink, _) :: rest =>
        let st1 : PoolState := { st0 with waiting := rest }
        (st1, deliverValue sink (JsVal.ofConn r))
    | [] => releaseConn opts st0 r now

/-- The eviction filter of `removeIdle` (source lines 202-206): keep an
entry at position `idx` for destruction only when
`¬ (totalConnections - options.min < idx)` and `now > timeout`, projected
to the connections. -/
def idleEligible (opts : Options) (st : PoolState) (now : Int) : List Resource :=
  ((st.available.enum.filter (fun p =>
      decide (¬ (st.total - opts.min < (p.1 : Int)) ∧ now > p.2.timeout))).map
    (fun p => p.2.connection))

/-- One step of the `forEach(connection => destroy(connection))` loop of
`removeIdle` (source line 207). -/
def destroyFold (opts : Options) (acc : PoolState × List Effect) (r : Resource) :
    PoolState × List Effect :=
  let d := destroyConn opts acc.1 r
  (d.1, acc.2 ++ d.2)

/-- Source lines 198-212: disarm, return if `refreshIdle` is off, destroy
each eligible connection, and re-arm when the (unchanged) available list is
non-empty. -/
def removeIdle (opts : Options) (st : PoolState) (now : Int) :
    PoolState × List Effect :=
  let st0 : PoolState := { st with reaperArmed := false }
  if opts.refreshIdle = false then (st0, [])
  else
    let fd := (idleEligible opts st0 now).foldl (destroyFold opts) (st0, [])
    let re := if fd.1.available.length > 0 then scheduleRemoveIdle fd.1 else (fd.1, [])
    (re.1, fd.2 ++ re.2)

/-- The observer/function completion signal used by `drain` and
`destroyAllNow` (source lines 114-118 and 144-148). -/
def signalEffects : Option Sink → List Effect
  | some (Sink.observer i) => [Effect.onCompleted (Sink.observer i)]
  | some (Sink.fn i) => [Effect.signalled (Sink.fn i)]
  | none => []

/-- Source lines 105-122: set `draining`, then run one synchronous `check`:
signal the sink when quiescent, otherwise schedule a poll. -/
def drain (st : PoolState) (sink : Option Sink) : PoolState × List Effect :=
  let st1 : PoolState := { st with draining := true }
  if st1.waiting.length > 0 ∨ (st1.available.length : Int) ≠ st1.total then
    (st1, [Effect.pollScheduled])
  else (st1, signalEffects sink)

/-- Source lines 137-149.  The `_.remove` predicate body evaluates
`connectionWithT(connectionWithTimeout.connection)`, but `connectionWithT`
is an undefined identifier, so the first predicate invocation raises a
ReferenceError; `_.remove` collects matches before mutating the array, so
the throw leaves all pool state unchanged.  With an empty available list
the predicate never runs: the reaper is disarmed and the sink signalled. -/
def destroyAllNow (st : PoolState) (sink : Option Sink) :
    Except JsError (PoolState × List Effect) :=
  match st.available with
  | [] =>
      .ok ({ st with reaperArmed := false },
           Effect.cancelledReaper :: signalEffects sink)
  | _ :: _ => .error .refError

/-- Query `poolSize` (source lines 175-177). -/
def poolSize (st : PoolState) : Int := st.total

/-- Query `waitingClientsCount` (source lines 187-189). -/
def waitingClientsCount (st : PoolState) : Nat := st.waiting.length

/-- Query `maxPoolSize` (source lines 191-193). -/
def maxPoolSize (opts : Options) : Int := opts.max

/-- Query `availableConnectionsCount` (source lines 183-185): the body is
`return availableConnections.size()`, but a JavaScript array has no `size`
method (the counter would be `.length`), so every invocation raises a
TypeError. -/
def availableConnectionsCount (_ : PoolState) : Except JsError Nat :=
  .error .typeError

/-- Pool construction (source lines 19-31): empty state, then `ensureMinimum`. -/
def initState (opts : Options) : PoolState × List Effect :=
  ensureMinimum opts
    { available := [], total := 0, waiting := [], draining := false,
      reaperArmed := false, pendingCreates := 0 }

/-- External events driving the pool: the public operations plus the
asynchronous completions (factory create success, reaper timer firing). -/
inductive PoolOp where
  | acquireOp (sink : Sink) (priority : Int)
  | createOk (r : Resource) (now : Int)
  | releaseOp (r : Resource) (now : Int)
  | destroyOp (r : Resource)
  | sweepOp (now : Int)
  | drainOp (sink : Option Sink)
  | destroyAllOp (sink : Option Sink)

/-- One transition of the pool; a raised exception aborts the step.  The
reaper timer can only fire while armed. -/
def step (opts : Options) (st : PoolState) :
    PoolOp → Except JsError (PoolState × List Effect)
  | .acquireOp s p =>
      match acquire opts st s p with
      | .ok (st', effs, _) => .ok (st', effs)
      | .error e => .error e
  | .createOk r now => .ok (createComplete opts st r now)
  | .releaseOp r now => .ok (releaseConn opts st r now)
  | .destroyOp r => .ok (destroyConn opts st r)
  | .sweepOp now => .ok (if st.reaperArmed then removeIdle opts st now else (st, []))
  | .drainOp s => .ok (drain st s)
  | .destroyAllOp s => destroyAllNow st s

/-- Run a sequence of pool operations from a state. -/
def runOps (opts : Options) (st : PoolState) :
    List PoolOp → Except JsError PoolState
  | [] => .ok st
  | op :: rest =>
      match step opts st op with
      | .ok (st', _) => runOps opts st' rest
      | .error e => .error e

/-- Number of entries of the available list holding a given connection. -/
def entryCount (l : List Entry) (r : Resource) : Nat :=
  l.countP (fun e => e.connection == r)

/-- Projection of an effect to the connection it hands to the factory
destroy, used to read off which resources a sweep destroyed. -/
def destroyTarget : Effect → Option Resource
  | .factoryDestroy r => some r
  | _ => none

/-- Pool options for the C1 trace: `max = 2`, everything else defaulted
(`min = 0`). -/
def opts1 : Options := mkOptions { max := some 2 }

/-- Event trace for C1: two acquisitions satisfied by two factory
creations, both resources released, then one destroyed. -/
def traceC1 : List PoolOp :=
  [ .acquireOp (.observer 1) 5, .createOk 101 0,
    .acquireOp (.observer 2) 5, .createOk 102 0,
    .releaseOp 101 10, .releaseOp 102 20,
    .destroyOp 101 ]

/-- Fully defaulted options (`max = 1`, `min = 0`, default validate). -/
def optsD : Options := mkOptions {}

/-- The empty pool state. -/
def stEmpty0 : PoolState :=
  { available := [], total := 0, waiting := [], draining := false,
    reaperArmed := false, pendingCreates := 0 }

/-- Options for C3: `max = 3`, a validate accepting connections `≥ 7`. -/
def opts3 : Options :=
  mkOptions { validate := some (fun r => decide (7 ≤ r)), max := some 3 }

/-- State for C3: three available entries (connections 5, 6, 7 — the first
two fail validate), one waiting observer. -/
def st3 : PoolState :=
  { available := [⟨5, 100⟩, ⟨6, 100⟩, ⟨7, 100⟩], total := 3,
    waiting := [(.observer 1, 10)], draining := false,
    reaperArmed := false, pendingCreates := 0 }

/-- State for C4: connection 7 sits in the available list. -/
def st4 : PoolState :=
  { available := [⟨7, 100⟩], total := 1, waiting := [], draining := false,
    reaperArmed := false, pendingCreates := 0 }

/-- State for C5: one available connection, one waiting callback, under the
default configuration. -/
def st5 : PoolState :=
  { available := [⟨7, 100⟩], total := 1, waiting := [(.fn 1, 10)],
    draining := false, reaperArmed := false, pendingCreates := 0 }

/-- Options for C6: `max = 3`, `min = 1`, `refreshIdle` defaulted to true. -/
def opts6 : Options := mkOptions { max := some 3, min := some 1 }

/-- State for C6: three available entries, all idle since time 10,
`totalCount = 3`, reaper armed. -/
def st6 : PoolState :=
  { available := [⟨1, 10⟩, ⟨2, 10⟩, ⟨3, 10⟩], total := 3, waiting := [],
    draining := false, reaperArmed := true, pendingCreates := 0 }

/-- State for C7: two available resources, `totalCount = 2`, not draining,
reaper armed. -/
def st7 : PoolState :=
  { available := [⟨1, 100⟩, ⟨2, 100⟩], total := 2, waiting := [],
    draining := false, reaperArmed := true, pendingCreates := 0 }

/-- State for C9: the empty pool right after `drain()` ran. -/
def st9 : PoolState := (drain stEmpty0 none).1

/-- State for the C10 witness: connection 7 already present. -/
def stP10 : PoolState :=
  { available := [⟨7, 100⟩], total := 1, waiting := [], draining := false,
    reaperArmed := false, pendingCreates := 0 }

/-- The filter run by `destroy` on the available list keeps every element,
because the strict-equality predicate never matches a wrapper. -/
theorem filter_keep_all (l : List Entry) (r : Resource) :
    l.filter (fun e => ! jsEqEntryConn e r) = l := by
  induction l with
  | nil => rfl
  | cons a t ih => simp [List.filter_cons, jsEqEntryConn, ih]

/-- Replenishment only touches the counters, never the available list. -/
theorem ensureMinimum_available (opts : Options) (s : PoolState) :
    (ensureMinimum opts s).1.available = s.available := by
  unfold ensureMinimum; split <;> rfl

/-- Replenishment emits only creation effects. -/
theorem filterMap_destroyTarget_replicate (n : Nat) :
    (List.replicate n Effect.factoryCreate).filterMap destroyTarget = [] := by
  induction n with
  | zero => rfl
  | succ k ih => simp [List.replicate_succ, List.filterMap_cons, destroyTarget, ih]

/-- Replenishment destroys nothing. -/
theorem ensureMinimum_no_destroy (opts : Options) (s : PoolState) :
    (ensureMinimum opts s).2.filterMap destroyTarget = [] := by
  unfold ensureMinimum; split
  · exact filterMap_destroyTarget_replicate _
  · rfl

/-- `destroy` leaves the available list untouched. -/
theorem destroyConn_available (opts : Options) (s : PoolState) (r : Resource) :
    (destroyConn opts s r).1.available = s.available := by
  unfold destroyConn
  rw [ensureMinimum_available]
  exact filter_keep_all s.available r

/-- One `destroy` call hands exactly its argument to the factory destroy. -/
theorem destroyConn_effects (opts : Options) (s : PoolState) (r : Resource) :
    (destroyConn opts s r).2.filterMap destroyTarget = [r] := by
  unfold destroyConn
  simp [List.filterMap_cons, destroyTarget, ensureMinimum_no_destroy]

/-- Creation leaves the available list untouched. -/
theorem createResource_available (s : PoolState) :
    (createResource s).1.available = s.available := rfl

/-- Arming the reaper leaves the available list untouched. -/
theorem scheduleRemoveIdle_available (s : PoolState) :
    (scheduleRemoveIdle s).1.available = s.available := by
  unfold scheduleRemoveIdle; split <;> rfl

/-- Arming the reaper destroys nothing. -/
theorem scheduleRemoveIdle_no_destroy (s : PoolState) :
    (scheduleRemoveIdle s).2.filterMap destroyTarget = [] := by
  unfold scheduleRemoveIdle; split <;> rfl

/-- The validate scan of `dispense` leaves the available list untouched:
the destroys it performs never remove the wrapper. -/
theorem scanFind_available (opts : Options) (l : List Entry) :
    ∀ s : PoolState, (scanFind opts s l).2.1.available = s.available := by
  induction l with
  | nil => intro s; rfl
  | cons e t ih =>
    intro s
    unfold scanFind
    split
    · rfl
    · dsimp only
      rw [ih, destroyConn_available]

/-- After `dispense`, the available list is either unchanged or its head
has been shifted off. -/
theorem dispense_available (opts : Options) (s : PoolState) :
    (dispense opts s).1.available = s.available ∨
    (dispense opts s).1.available = s.available.tail := by
  unfold dispense
  split
  · dsimp only
    rcases hsf : (scanFind opts s s.available).1 with _ | e
    · simp only [hsf]
      split
      · left; rw [createResource_available, scanFind_available]
      · left; rw [scanFind_available]
    · simp only [hsf]
      rcases hwq : { (scanFind opts s s.available).2.1 with
          available := (scanFind opts s s.available).2.1.available.tail : PoolState }.waiting
        with _ | ⟨⟨sk, pr⟩, rest⟩
      · simp only [hwq]
        split
        · right; rw [createResource_available, scanFind_available]
        · right; rw [scanFind_available]
      · simp only [hwq]
        split
        · right; rw [createResource_available, scanFind_available]
        · right; rw [scanFind_available]
  · left; rfl

/-- Shifting the head never raises an entry count. -/
theorem entryCount_tail_le (l : List Entry) (r : Resource) :
    entryCount l.tail r ≤ entryCount l r := by
  cases l with
  | nil => exact Nat.le_refl _
  | cons a t =>
    unfold entryCount
    rw [List.tail_cons, List.countP_cons]
    exact Nat.le_add_right _ _

/-- A connection the double-release guard does not see occurs zero times. -/
theorem isPresent_false_count (s : PoolState) (r : Resource)
    (h : isPresent s r = false) : entryCount s.available r = 0 := by
  unfold isPresent at h
  unfold entryCount
  rw [List.countP_eq_zero]
  intro a ha
  rw [List.any_eq_false] at h
  exact h a ha

/-- Dispatch followed by reaper arming keeps an entry count at most one. -/
theorem dispatch_count_le_one (opts : Options) (s : PoolState) (r : Resource)
    (hs : entryCount s.available r ≤ 1) :
    entryCount ((scheduleRemoveIdle (dispense opts s).1).1).available r ≤ 1 := by
  rw [scheduleRemoveIdle_available]
  rcases dispense_available opts s with hd | hd <;> rw [hd]
  · exact hs
  · exact Nat.le_trans (entryCount_tail_le _ _) hs

/-- Inserting a wrapper for a connection absent from the list, at head or
tail, yields exactly one entry for it. -/
theorem entryCount_push (l : List Entry) (e : Entry) (r : Resource)
    (he : e.connection = r) (h0 : entryCount l r = 0) :
    entryCount (e :: l) r = 1 ∧ entryCount (l ++ [e]) r = 1 := by
  unfold entryCount at h0 ⊢
  constructor
  · rw [List.countP_cons, h0]
    simp [he]
  · rw [List.countP_append, h0]
    simp [List.countP_cons, he]

/-- Releasing an absent connection leaves it with at most one entry. -/
theorem release_count_le_one (opts : Options) (s : PoolState) (r : Resource)
    (now : Int) (h : isPresent s r = false) :
    entryCount ((releaseConn opts s r now).1).available r ≤ 1 := by
  have h0 := isPresent_false_count s r h
  have hp := entryCount_push s.available
      { connection := r, timeout := now + opts.idleTimeoutMillis } r rfl h0
  unfold releaseConn
  rw [if_neg (by rw [h]; exact Bool.false_ne_true)]
  dsimp only
  apply dispatch_count_le_one
  by_cases hrt : opts.returnToHead = true
  · rw [if_pos hrt, hp.1]
  · rw [if_neg hrt, hp.2]

/-- `release` keeps an at-most-one entry count for its argument. -/
theorem release_count_preserve (opts : Options) (s : PoolState) (r : Resource)
    (now : Int) (hc : entryCount s.available r ≤ 1) :
    entryCount ((releaseConn opts s r now).1).available r ≤ 1 := by
  cases hp : isPresent s r with
  | false => exact release_count_le_one opts s r now hp
  | true =>
    have : releaseConn opts s r now = (s, []) := by
      unfold releaseConn; rw [hp]; rfl
    rw [this]
    exact hc

/-- The destroy loop of the sweep reports exactly the folded connections. -/
theorem foldl_destroyFold_effects (opts : Options) (rs : List Resource) :
    ∀ (s : PoolState) (es : List Effect),
      ((rs.foldl (destroyFold opts) (s, es)).2).filterMap destroyTarget =
        es.filterMap destroyTarget ++ rs := by
  induction rs with
  | nil => intro s es; simp
  | cons r t ih =>
    intro s es
    rw [List.foldl_cons]
    show ((t.foldl (destroyFold opts)
        ((destroyConn opts s r).1, es ++ (destroyConn opts s r).2)).2).filterMap
          destroyTarget = _
    rw [ih, List.filterMap_append, destroyConn_effects]
    simp

/-- The destroy loop of the sweep leaves the available list untouched. -/
theorem foldl_destroyFold_available (opts : Options) (rs : List Resource) :
    ∀ (s : PoolState) (es : List Effect),
      ((rs.foldl (destroyFold opts) (s, es)).1).available = s.available := by
  induction rs with
  | nil => intro s es; rfl
  | cons r t ih =>
    intro s es
    rw [List.foldl_cons]
    show ((t.foldl (destroyFold opts)
        ((destroyConn opts s r).1, es ++ (destroyConn opts s r).2)).1).available = _
    rw [ih, destroyConn_available]

/-- Claim C1 is false on the code: after two creations, two releases and
one consumer `destroy`, the pool reaches the quiescent state with
`availableEntries.length = 2` but `totalCount = 1`, because `destroy`'s
removal predicate compares the wrapper object against the raw connection
and never removes the wrapper.  So the claimed invariant
`availableEntries.length ≤ totalCount` fails on a reachable sequence of
acquire/release/destroy operations. -/
theorem c1_available_exceeds_total :
    ∃ st : PoolState,
      runOps opts1 (initState opts1).1 traceC1 = Except.ok st ∧
        ¬ ((st.available.length : Int) ≤ st.total) := by
  refine ⟨_, rfl, ?_⟩
  decide

/-- Claim C2 is false on the code: the priority stored by `acquire`,
`Math.max(Math.min(priority, 0), options.priorityRange)`, equals
`options.priorityRange` for every requested priority (shown for the
default configuration), so two requests with distinct priorities are
enqueued with identical priority and dispatch order cannot depend on the
requested values: acquiring with priority 0 and with priority 9 produce
identical results on the same pool. -/
theorem c2_priority_collapsed :
    (∀ p : Int, storedPriority optsD p = 10) ∧
      acquire optsD stEmpty0 (.fn 1) 0 = acquire optsD stEmpty0 (.fn 1) 9 := by
  constructor
  · intro p
    show max (min p 0) (10 : Int) = 10
    exact max_eq_right (le_trans (min_le_right p 0) (by norm_num))
  · rfl

/-- Claim C3 is false on the code, three ways, all visible in this
evaluation of `dispense` on available entries 5, 6, 7 (validate accepts
only values at least 7) with one waiting observer: the two entries failing
validate are factory-destroyed but stay in the available list
(result list is `[entry 6, entry 7]`, not `[entry 7]`); `shift()` removes
the head entry 5 rather than the found entry 7, which remains in the list
even though it was handed out; and the sink's value channel receives the
wrapper `JsVal.ofEntry` rather than the resource itself. -/
theorem c3_dispense_divergence :
    dispense opts3 st3 =
      ({ available := [⟨6, 100⟩, ⟨7, 100⟩], total := 2, waiting := [],
         draining := false, reaperArmed := false, pendingCreates := 1 },
       [Effect.factoryDestroy 5, Effect.factoryDestroy 6,
        Effect.onNextVal (.observer 1) (JsVal.ofEntry ⟨7, 100⟩),
        Effect.onCompleted (.observer 1), Effect.factoryCreate]) := rfl

/-- Claim C4 is false on the code: `destroy(7)` on a pool whose available
list holds the wrapper for connection 7 invokes the factory destroy and
decrements `totalCount`, but the wrapper is still present afterwards —
`_.remove(availableConnections, cwt => cwt === connection)` compares the
wrapper object to the raw connection and never matches. -/
theorem c4_destroy_leaves_entry :
    destroyConn optsD st4 7 =
      ({ available := [⟨7, 100⟩], total := 0, waiting := [],
         draining := false, reaperArmed := false, pendingCreates := 0 },
       [Effect.factoryDestroy 7]) ∧
    isPresent (destroyConn optsD st4 7).1 7 = true := ⟨rfl, rfl⟩

/-- Claim C5 is false on the code: the default validate is `() => {}`,
which returns `undefined` (falsy), not `true`; consequently, under the
default configuration `dispense` destroys the available resource during
its validation scan instead of handing it to the waiting client. -/
theorem c5_default_validate_rejects :
    (∀ r : Resource, optsD.validate r = false) ∧
      dispense optsD st5 =
        ({ available := [⟨7, 100⟩], total := 1, waiting := [(.fn 1, 10)],
           draining := false, reaperArmed := false, pendingCreates := 1 },
         [Effect.factoryDestroy 7, Effect.factoryCreate]) :=
  ⟨fun _ => rfl, rfl⟩

/-- Claim C6 counterexample: with `totalCount = 3`, `min = 1` and three
expired entries, the entry at position 0 satisfies `0 < totalCount - min`
(so by the claim's rule `i ≥ totalCount - min` it must be preserved) and
its deadline has passed, yet the sweep destroys its connection. -/
theorem c6_counterexample :
    ¬ ((0 : Int) ≥ st6.total - opts6.min) ∧
    st6.available.head? = some ⟨1, 10⟩ ∧ (50 : Int) > 10 ∧
    Effect.factoryDestroy 1 ∈ (removeIdle opts6 st6 50).2 := by
  decide

/-- Claim C6, amended: during a sweep with `refreshIdle` true, the
connections destroyed are exactly those of the entries at positions `i`
with `¬ (totalCount − min < i)` — that is, `i ≤ totalCount − min`,
the opposite side of the claimed threshold — whose idle deadline has
passed (with `totalCount` read before the sweep); the sweep can therefore
destroy more than `totalCount − min` entries and drop `totalCount` below
`min` (replenishment then starts replacement creations), and the evicted
entries are not removed from `availableEntries`, whose contents the sweep
leaves unchanged. -/
theorem c6_sweep_eviction_rule (opts : Options) (st : PoolState) (now : Int)
    (h : opts.refreshIdle = true) :
    (removeIdle opts st now).2.filterMap destroyTarget =
        idleEligible opts st now ∧
    (removeIdle opts st now).1.available = st.available := by
  unfold removeIdle
  rw [if_neg (by simp [h])]
  dsimp only
  constructor
  · rw [List.filterMap_append]
    rw [show idleEligible opts { st with reaperArmed := false } now =
          idleEligible opts st now from rfl] at *
    rw [foldl_destroyFold_effects]
    split
    · rw [scheduleRemoveIdle_no_destroy]
      simp
    · simp
  · split
    · rw [scheduleRemoveIdle_available, foldl_destroyFold_available]
    · rw [foldl_destroyFold_available]

/-- Witness for the amended C6 rule at the counterexample input: all three
expired entries (positions 0, 1, 2, each with `i ≤ 3 − 1`) are destroyed,
and the available list is unchanged. -/
theorem c6_sweep_eviction_rule_witness :
    (removeIdle opts6 st6 50).2.filterMap destroyTarget = [1, 2, 3] ∧
    (removeIdle opts6 st6 50).1.available = st6.available := by
  have h := c6_sweep_eviction_rule opts6 st6 50 rfl
  exact ⟨h.1.trans (by decide), h.2⟩

/-- Claim C7 is false on the code: `destroyAllNow` on a pool with two
available resources raises a ReferenceError — the removal predicate calls
the undefined identifier `connectionWithT` — before destroying anything,
so neither resource is destroyed, `totalCount` stays 2, the reaper is not
cancelled and the sink is never signalled. -/
theorem c7_destroyAllNow_raises :
    destroyAllNow st7 (some (.observer 9)) = .error .refError := rfl

/-- Claim C8 is false on the code: the read-only query
`availableConnectionsCount` invokes `availableConnections.size()`, but a
JavaScript array has no `size` method, so the query throws a TypeError on
every pool state — here, on the freshly constructed default pool. -/
theorem c8_count_query_raises :
    availableConnectionsCount (initState optsD).1 = .error .typeError := rfl

/-- Claim C9 is false on the code for the single-function sink shape:
after `drain()`, an `acquire` with a plain `(err, resource)` callback
raises a TypeError — the draining path calls `observer.onError(...)`
unconditionally, and a function has no `onError` property — instead of
delivering the draining error through the callback. -/
theorem c9_draining_acquire_raises :
    acquire optsD st9 (.fn 1) 5 = .error .typeError := rfl

/-- Claim C10: release is idempotent for a resource already present in
`availableEntries` by identity — the call returns with no state change and
no effects — and releasing the same absent resource twice without an
intervening acquire leaves at most one entry for it (no duplicates). -/
theorem c10_release_idempotent (opts : Options) (st : PoolState)
    (r : Resource) (now now' : Int) :
    (isPresent st r = true → releaseConn opts st r now = (st, [])) ∧
    (isPresent st r = false →
      entryCount ((releaseConn opts
          ((releaseConn opts st r now).1) r now').1).available r ≤ 1) := by
  constructor
  · intro h
    unfold releaseConn
    rw [if_pos h]
  · intro h
    exact release_count_preserve opts _ r now'
      (release_count_le_one opts st r now h)

/-- Witness for C10: releasing present connection 7 is a no-op, and
double-releasing absent connection 7 on the empty pool leaves at most one
entry for it. -/
theorem c10_release_idempotent_witness :
    releaseConn optsD stP10 7 5 = (stP10, []) ∧
    entryCount ((releaseConn optsD
        ((releaseConn optsD stEmpty0 7 5).1) 7 6).1).available 7 ≤ 1 :=
  ⟨(c10_release_idempotent optsD stP10 7 5 6).1 (by decide),
   (c10_release_idempotent optsD stEmpty0 7 5 6).2 (by decide)⟩

end ObservablePool
